import Mathlib

/-!
Order controller of the pharmacy backend.

A shallow embedding of `Backend/controllers/orderController.js`.

The three MongoDB collections the controller talks to (`Order`, `Cart`,
`Medicine`) are lists of documents in insertion order.  A lookup by `_id`
(or `findOne` by a field) returns the first matching document, an update or
a delete by `_id` acts on the first matching document, and `find` returns
the matching documents in collection order.  Every handler is a function
from the state of the three collections and the request to the response and
the state afterwards.  Store calls are taken to succeed (no driver or
schema-validation exception), identifiers are natural numbers standing for
non-empty ObjectId strings, and quantities are integers (counts, on which the
comparison and `$inc` are exact).  Prices and totals
are JavaScript numbers, that is IEEE 754 binary64 values: `price * quantity`
and `totalAmount += itemTotal` round to nearest, ties to even.
-/

namespace OrderController

/-! ## JavaScript numbers -/

/-- A JavaScript number, an IEEE 754 binary64 value.  `finite m e` is the
value `m * 2 ^ e`, kept as the format stores it: `m` has at most 53 binary
digits, `e` is between -1074 and 971, and `m` has exactly 53 digits unless
`e` is -1074 (the subnormal values, zero among them).  The two zeros are one
value here: addition and multiplication give results of the same value for
either, and the handlers do nothing else with numbers. -/
inductive JSNumber where
  | finite (m : Int) (e : Int)
  | posInf
  | negInf
  | nan
  deriving DecidableEq, Repr

namespace JSNumber

/-- The least `j`, searched from `j` on, with `n < 2 ^ 2 ^ j`; `fuel` bounds
the number of steps, and `n` steps are enough from 0. -/
def searchTop : Nat → Nat → Nat → Nat
  | 0, _, j => j
  | fuel + 1, n, j => if n < 2 ^ 2 ^ j then j else searchTop fuel n (j + 1)

/-- From `2 ^ k ≤ n < 2 ^ (k + 2 ^ i)`, the `k` with `2 ^ k ≤ n < 2 ^ (k + 1)`. -/
def refine : Nat → Nat → Nat → Nat
  | 0, _, k => k
  | i + 1, n, k => if 2 ^ (k + 2 ^ i) ≤ n then refine i n (k + 2 ^ i) else refine i n k

/-- The position of the leading binary digit of `n`, for `0 < n`. -/
def leadingBit (n : Nat) : Nat := refine (searchTop n n 0) n 0

/-- The binary64 value nearest to the exact value `m * 2 ^ e`, ties to the
even significand; infinite when the rounded value does not fit the format. -/
def round (m e : Int) : JSNumber :=
  if m = 0 then .finite 0 (-1074)
  else
    let a : Nat := m.natAbs
    let top : Int := e + (leadingBit a : Nat)
    let qe : Int := max (top - 52) (-1074)
    let q : Nat :=
      if qe ≤ e then a * 2 ^ (e - qe).toNat
      else
        let s : Nat := (qe - e).toNat
        let q0 : Nat := a / 2 ^ s
        let r : Nat := a % 2 ^ s
        let half : Nat := 2 ^ (s - 1)
        if half < r ∨ (r = half ∧ q0 % 2 = 1) then q0 + 1 else q0
    let q1 : Nat := if q = 2 ^ 53 then 2 ^ 52 else q
    let qe1 : Int := if q = 2 ^ 53 then qe + 1 else qe
    if q1 = 0 then .finite 0 (-1074)
    else if 971 < qe1 then (if 0 < m then .posInf else .negInf)
    else .finite (if 0 < m then (q1 : Int) else -(q1 : Int)) qe1

/-- The number an integer stands for. -/
def ofInt (n : Int) : JSNumber := round n 0

/-- The operator `+` of JavaScript on numbers.  Adding zero is exact and is
taken first; otherwise the exact sum is rounded. -/
def add : JSNumber → JSNumber → JSNumber
  | .nan, _ => .nan
  | _, .nan => .nan
  | .posInf, .negInf => .nan
  | .negInf, .posInf => .nan
  | .posInf, _ => .posInf
  | .negInf, _ => .negInf
  | _, .posInf => .posInf
  | _, .negInf => .negInf
  | .finite m1 e1, .finite m2 e2 =>
    if m1 = 0 then .finite m2 e2
    else if m2 = 0 then .finite m1 e1
    else round (m1 * 2 ^ (e1 - min e1 e2).toNat + m2 * 2 ^ (e2 - min e1 e2).toNat) (min e1 e2)

/-- The product of an infinity (positive when `positive`) and the finite
value of significand `m`. -/
def scaleInf (positive : Bool) (m : Int) : JSNumber :=
  if m = 0 then .nan
  else if decide (0 < m) = positive then .posInf else .negInf

/-- The operator `*` of JavaScript on numbers. -/
def mul : JSNumber → JSNumber → JSNumber
  | .nan, _ => .nan
  | _, .nan => .nan
  | .finite m1 e1, .finite m2 e2 => round (m1 * m2) (e1 + e2)
  | .finite m _, .posInf => scaleInf true m
  | .finite m _, .negInf => scaleInf false m
  | .posInf, .finite m _ => scaleInf true m
  | .negInf, .finite m _ => scaleInf false m
  | .posInf, .posInf => .posInf
  | .negInf, .negInf => .posInf
  | .posInf, .negInf => .negInf
  | .negInf, .posInf => .negInf

/-- The exact value of a finite number, as a rational. -/
def toRat? : JSNumber → Option ℚ
  | .finite m e => some ((m : ℚ) * (2 : ℚ) ^ e)
  | _ => none

instance : Add JSNumber := ⟨add⟩

instance : Mul JSNumber := ⟨mul⟩

instance (n : Nat) : OfNat JSNumber n := ⟨ofInt n⟩

end JSNumber

/-! ## Documents -/

/-- The `stock` sub-document of a medicine. -/
structure Stock where
  quantity : Int
  deriving DecidableEq, Repr

/-- Modelled from the spec: the `Medicine` schema (models/medicine.js), a
catalog item with identifier, display name, unit price and available
quantity. -/
structure Medicine where
  _id : Nat
  productName : String
  price : JSNumber
  stock : Stock
  deriving DecidableEq, Repr

/-- Modelled from the spec: a line item of a cart (models/cart.js), an item
reference and a quantity, with no captured price. -/
structure CartItem where
  medicineId : Nat
  quantity : Int
  deriving DecidableEq, Repr

/-- Modelled from the spec: the `Cart` schema (models/cart.js), with an
optional owner, the line items and a precomputed total. -/
structure Cart where
  _id : Nat
  userId : Option Nat
  items : List CartItem
  totalPrice : JSNumber
  deriving DecidableEq, Repr

/-- Modelled from the spec: the order status enumeration of models/order.js. -/
inductive Status where
  | Pending
  | Processing
  | Shipped
  | Delivered
  | Cancelled
  deriving DecidableEq, Repr

/-- Modelled from the spec: the payment status enumeration of models/order.js. -/
inductive PaymentStatus where
  | Pending
  | Paid
  | Failed
  deriving DecidableEq, Repr

/-- A line item stored on an order.  `price` is absent when the line item was
copied from a cart (`placeOrder`), and the snapshot of the catalog price when
built by `placeOrderByUserId` or `placeOrderUsingCartId`. -/
structure OrderItem where
  medicineId : Nat
  quantity : Int
  price : Option JSNumber
  deriving DecidableEq, Repr

/-- Modelled from the spec: the `Order` schema (models/order.js). -/
structure Order where
  _id : Nat
  userId : Option Nat
  items : List OrderItem
  totalAmount : JSNumber
  status : Status
  paymentStatus : PaymentStatus
  address : Option String
  contact : Option String
  deriving DecidableEq, Repr

/-- A line item of an order after `populate("items.medicineId")`: the
reference is replaced by the catalog document (or null when there is none). -/
structure PopulatedItem where
  medicineId : Option Medicine
  quantity : Int
  price : Option JSNumber
  deriving DecidableEq, Repr

/-- An order after `populate("items.medicineId")`. -/
structure PopulatedOrder where
  _id : Nat
  userId : Option Nat
  items : List PopulatedItem
  totalAmount : JSNumber
  status : Status
  paymentStatus : PaymentStatus
  address : Option String
  contact : Option String
  deriving DecidableEq, Repr

/-- The three collections. -/
structure State where
  orders : List Order
  carts : List Cart
  medicines : List Medicine
  deriving DecidableEq, Repr

/-! ## Responses -/

/-- The JSON body of a response. -/
inductive Body where
  | message (m : String)
  | messageOrder (m : String) (order : Order)
  | orders (os : List PopulatedOrder)
  | serverError
  deriving DecidableEq, Repr

/-- The result of `res.status(code).json(body)`. -/
structure Response where
  status : Nat
  body : Body
  deriving DecidableEq, Repr

/-! ## Store operations -/

/-- The call `Medicine.findById(id)`. -/
def Medicine.findById (ms : List Medicine) (id : Nat) : Option Medicine :=
  ms.find? (fun m => m._id == id)

/-- The increment of `stock.quantity` of one document by `d`. -/
def Medicine.inc (m : Medicine) (d : Int) : Medicine :=
  { m with stock := { quantity := m.stock.quantity + d } }

/-- The call `Medicine.findByIdAndUpdate(id, { $inc: { "stock.quantity": d } })`:
the first document with that `_id` has its quantity incremented; nothing
changes when there is none. -/
def Medicine.findByIdAndUpdate : List Medicine → Nat → Int → List Medicine
  | [], _, _ => []
  | m :: ms, id, d =>
    if m._id = id then m.inc d :: ms else m :: Medicine.findByIdAndUpdate ms id d

/-- The call `Cart.findOne({ userId })`. -/
def Cart.findOne (cs : List Cart) (userId : Nat) : Option Cart :=
  cs.find? (fun c => c.userId == some userId)

/-- The call `Cart.findById(cartId)`. -/
def Cart.findById (cs : List Cart) (cartId : Nat) : Option Cart :=
  cs.find? (fun c => c._id == cartId)

/-- The call `Cart.findOneAndDelete({ userId })`. -/
def Cart.findOneAndDelete (cs : List Cart) (userId : Nat) : List Cart :=
  cs.eraseP (fun c => c.userId == some userId)

/-- The call `Cart.findByIdAndDelete(cartId)`. -/
def Cart.findByIdAndDelete (cs : List Cart) (cartId : Nat) : List Cart :=
  cs.eraseP (fun c => c._id == cartId)

/-- The call `Order.findById(id)`. -/
def Order.findById (os : List Order) (id : Nat) : Option Order :=
  os.find? (fun o => o._id == id)

/-- The call `Order.find({ userId })`. -/
def Order.find (os : List Order) (userId : Nat) : List Order :=
  os.filter (fun o => o.userId == some userId)

/-- The call `order.save()` on a document that was read from the collection:
the first document with the same `_id` is replaced. -/
def Order.save : List Order → Order → List Order
  | [], _ => []
  | o :: os, n => if o._id = n._id then n :: os else o :: Order.save os n

/-- The identifier given to a document by `new Order(...)`: one that no
stored order has. -/
def Order.freshId (os : List Order) : Nat :=
  (os.map (fun o => o._id)).foldr max 0 + 1

/-- The call `newOrder.save()` on a new document: it is appended. -/
def Order.insert (os : List Order) (n : Order) : List Order :=
  os ++ [n]

/-- The effect of `populate("items.medicineId")` on one line item. -/
def populateItem (ms : List Medicine) (i : OrderItem) : PopulatedItem :=
  { medicineId := Medicine.findById ms i.medicineId, quantity := i.quantity, price := i.price }

/-- The effect of `populate("items.medicineId")` on one order. -/
def populate (ms : List Medicine) (o : Order) : PopulatedOrder :=
  { _id := o._id, userId := o.userId, items := o.items.map (populateItem ms),
    totalAmount := o.totalAmount, status := o.status, paymentStatus := o.paymentStatus,
    address := o.address, contact := o.contact }

/-- JavaScript truthiness of an optional string: present and not empty. -/
def truthy (s : Option String) : Bool :=
  match s with
  | none => false
  | some v => v != ""

/-! ## Handlers -/

/-- The handler `cancelOrder`, with `id` the route parameter. -/
def cancelOrder (st : State) (id : Nat) : Response × State :=
  match Order.findById st.orders id with
  | none => (⟨404, .message "Order not found"⟩, st)
  | some order =>
    if order.status = .Shipped ∨ order.status = .Delivered then
      (⟨400, .message "Cannot cancel a shipped or delivered order"⟩, st)
    else
      let order1 : Order := { order with status := .Cancelled }
      (⟨200, .messageOrder "Order cancelled successfully" order1⟩,
        { st with orders := Order.save st.orders order1 })

/-- The handler `getOrders`, with `userId` the authenticated `req.user.id`. -/
def getOrders (st : State) (userId : Nat) : Response × State :=
  (⟨200, .orders ((Order.find st.orders userId).map (populate st.medicines))⟩, st)

/-- The handler `getOrdersByPatientId`, with `id` the route parameter. -/
def getOrdersByPatientId (st : State) (id : Nat) : Response × State :=
  let orders := (Order.find st.orders id).map (populate st.medicines)
  if orders.length = 0 then
    (⟨404, .message "No orders found for this patient"⟩, st)
  else
    (⟨200, .orders orders⟩, st)

/-- The line item an order stores for a line item of a cart: the cart holds
no price, so none is stored. -/
def CartItem.toOrderItem (i : CartItem) : OrderItem :=
  { medicineId := i.medicineId, quantity := i.quantity, price := none }

/-- The first loop of `placeOrder` (check stock availability): the response
of its early return, if it returns.  Reading `medicine.stock` of a medicine
that does not exist throws, and the handler answers 500 from its catch
block. -/
def checkStock (ms : List Medicine) : List CartItem → Option Response
  | [] => none
  | item :: rest =>
    match Medicine.findById ms item.medicineId with
    | none => some ⟨500, .serverError⟩
    | some medicine =>
      if medicine.stock.quantity < item.quantity then
        some ⟨400, .message ("Not enough stock for " ++ medicine.productName)⟩
      else
        checkStock ms rest

/-- The second loop of `placeOrder` (reduce stock). -/
def reduceStock : List Medicine → List CartItem → List Medicine
  | ms, [] => ms
  | ms, item :: rest =>
    reduceStock (Medicine.findByIdAndUpdate ms item.medicineId (-item.quantity)) rest

/-- The handler `placeOrder`, with `userId` the authenticated `req.user.id`
and `address`, `contact` the fields of the request body. -/
def placeOrder (st : State) (userId : Nat) (address contact : Option String) :
    Response × State :=
  match Cart.findOne st.carts userId with
  | none => (⟨400, .message "Cart is empty"⟩, st)
  | some cart =>
    if cart.items.length = 0 then
      (⟨400, .message "Cart is empty"⟩, st)
    else
      match checkStock st.medicines cart.items with
      | some early => (early, st)
      | none =>
        let newOrder : Order :=
          { _id := Order.freshId st.orders, userId := some userId,
            items := cart.items.map CartItem.toOrderItem, totalAmount := cart.totalPrice,
            status := .Pending, paymentStatus := .Pending,
            address := address, contact := contact }
        (⟨201, .messageOrder "Order placed successfully" newOrder⟩,
          { orders := Order.insert st.orders newOrder,
            carts := Cart.findOneAndDelete st.carts userId,
            medicines := reduceStock st.medicines cart.items })

/-- The name put in the message of the direct-items flows:
`medicine?.productName || "Unknown medicine"`. -/
def nameOrUnknown (m : Option Medicine) : String :=
  match m with
  | none => "Unknown medicine"
  | some medicine => if medicine.productName = "" then "Unknown medicine" else medicine.productName

/-- The loop of `placeOrderByUserId` and of `placeOrderUsingCartId` (the two
handlers have the same loop body).  The arguments after the items are the
catalog, `totalAmount` and `finalItems` when the iteration starts; the result
is the catalog when the loop is left, with either the response of the early
return or the final `totalAmount` and `finalItems`.  The quantity, an integer
here, enters `medicine.price * item.quantity` as the number it stands for. -/
def itemsLoop : List CartItem → List Medicine → JSNumber → List OrderItem →
    List Medicine × Except Response (JSNumber × List OrderItem)
  | [], ms, totalAmount, finalItems => (ms, .ok (totalAmount, finalItems))
  | item :: rest, ms, totalAmount, finalItems =>
    match Medicine.findById ms item.medicineId with
    | none => (ms, .error ⟨400, .message ("Not enough stock for " ++ nameOrUnknown none)⟩)
    | some medicine =>
      if medicine.stock.quantity < item.quantity then
        (ms, .error ⟨400, .message ("Not enough stock for " ++ nameOrUnknown (some medicine))⟩)
      else
        itemsLoop rest
          (Medicine.findByIdAndUpdate ms item.medicineId (-item.quantity))
          (totalAmount + medicine.price * JSNumber.ofInt item.quantity)
          (finalItems ++ [{ medicineId := item.medicineId, quantity := item.quantity,
                            price := some medicine.price }])

/-- The body of a `placeOrderByUserId` request. -/
structure ByUserIdBody where
  userId : Option Nat
  address : Option String
  contact : Option String
  cartItems : Option (List CartItem)
  deriving DecidableEq, Repr

/-- The handler `placeOrderByUserId`. -/
def placeOrderByUserId (st : State) (body : ByUserIdBody) : Response × State :=
  match body.userId, body.cartItems with
  | some userId, some cartItems =>
    if truthy body.address = false ∨ truthy body.contact = false ∨ cartItems.length = 0 then
      (⟨400, .message "Missing required fields or cart is empty"⟩, st)
    else
      match itemsLoop cartItems st.medicines 0 [] with
      | (ms, .error early) => (early, { st with medicines := ms })
      | (ms, .ok (totalAmount, finalItems)) =>
        let newOrder : Order :=
          { _id := Order.freshId st.orders, userId := some userId,
            items := finalItems, totalAmount := totalAmount,
            status := .Pending, paymentStatus := .Pending,
            address := body.address, contact := body.contact }
        (⟨201, .messageOrder "Order placed successfully" newOrder⟩,
          { st with orders := Order.insert st.orders newOrder, medicines := ms })
  | _, _ => (⟨400, .message "Missing required fields or cart is empty"⟩, st)

/-- The body of a `placeOrderUsingCartId` request. -/
structure UsingCartIdBody where
  cartId : Option Nat
  address : Option String
  contact : Option String
  deriving DecidableEq, Repr

/-- The handler `placeOrderUsingCartId`. -/
def placeOrderUsingCartId (st : State) (body : UsingCartIdBody) : Response × State :=
  match body.cartId with
  | none => (⟨400, .message "Missing required fields"⟩, st)
  | some cartId =>
    if truthy body.address = false ∨ truthy body.contact = false then
      (⟨400, .message "Missing required fields"⟩, st)
    else
      match Cart.findById st.carts cartId with
      | none => (⟨404, .message "Cart not found or empty"⟩, st)
      | some cart =>
        if cart.items.length = 0 then
          (⟨404, .message "Cart not found or empty"⟩, st)
        else
          match itemsLoop cart.items st.medicines 0 [] with
          | (ms, .error early) => (early, { st with medicines := ms })
          | (ms, .ok (totalAmount, finalItems)) =>
            let newOrder : Order :=
              { _id := Order.freshId st.orders, userId := cart.userId,
                items := finalItems, totalAmount := totalAmount,
                status := .Pending, paymentStatus := .Pending,
                address := body.address, contact := body.contact }
            (⟨201, .messageOrder "Order placed successfully" newOrder⟩,
              { orders := Order.insert st.orders newOrder,
                carts := Cart.findByIdAndDelete st.carts cartId,
                medicines := ms })

/-! ## Sample data -/

/-- Medicine A of the scenarios: stock 5, price 10. -/
def medA : Medicine := { _id := 1, productName := "A", price := 10, stock := { quantity := 5 } }

/-- Medicine B of the scenarios: stock 0. -/
def medB : Medicine := { _id := 2, productName := "B", price := 7, stock := { quantity := 0 } }

/-- A cart of user 7 with 2 units of A and 1 unit of B. -/
def cartAB : Cart :=
  { _id := 30, userId := some 7, items := [⟨1, 2⟩, ⟨2, 1⟩], totalPrice := 27 }

/-- A cart of user 7 with 2 units of A. -/
def cartA : Cart := { _id := 31, userId := some 7, items := [⟨1, 2⟩], totalPrice := 20 }

/-- A store with medicines A and B, no order and the cart `cartAB`. -/
def stAB : State := { orders := [], carts := [cartAB], medicines := [medA, medB] }

/-- A store with medicines A and B, no order and the cart `cartA`. -/
def stA : State := { orders := [], carts := [cartA], medicines := [medA, medB] }

/-- A cart of user 7 with two line items of 3 units of A each. -/
def cartAA : Cart := { _id := 32, userId := some 7, items := [⟨1, 3⟩, ⟨1, 3⟩], totalPrice := 60 }

/-- A store with medicines A and B, no order and the cart `cartAA`. -/
def stAA : State := { orders := [], carts := [cartAA], medicines := [medA, medB] }

/-- A cart of user 7 with 2 units of A and a stored total of 15, which is
not 2 times the catalog price of A. -/
def cartStale : Cart := { _id := 33, userId := some 7, items := [⟨1, 2⟩], totalPrice := 15 }

/-- A store with medicines A and B, no order and the cart `cartStale`. -/
def stStale : State := { orders := [], carts := [cartStale], medicines := [medA, medB] }

/-- A `placeOrderByUserId` request of user 7 for 2 units of A. -/
def bodyA : ByUserIdBody :=
  { userId := some 7, address := some "12 Hill Road", contact := some "555-0100",
    cartItems := some [⟨1, 2⟩] }

/-- A `placeOrderByUserId` request of user 7 for 2 units of A and 1 unit of B. -/
def bodyAB : ByUserIdBody :=
  { userId := some 7, address := some "12 Hill Road", contact := some "555-0100",
    cartItems := some [⟨1, 2⟩, ⟨2, 1⟩] }

/-- A `placeOrderByUserId` request of user 7 with two line items of 3 units
of A each. -/
def bodyAA : ByUserIdBody :=
  { userId := some 7, address := some "12 Hill Road", contact := some "555-0100",
    cartItems := some [⟨1, 3⟩, ⟨1, 3⟩] }

/-- A `placeOrderUsingCartId` request for the cart with identifier `cartId`. -/
def bodyCart (cartId : Nat) : UsingCartIdBody :=
  { cartId := some cartId, address := some "12 Hill Road", contact := some "555-0100" }

/-- The order that `placeOrderByUserId` creates for `bodyA` in an empty order
store. -/
def orderA : Order :=
  { _id := 1, userId := some 7, items := [⟨1, 2, some 10⟩], totalAmount := 20,
    status := .Pending, paymentStatus := .Pending,
    address := some "12 Hill Road", contact := some "555-0100" }

/-- A store whose only order is `orderA`, owned by user 7. -/
def stOrder : State := { orders := [orderA], carts := [], medicines := [medA, medB] }

/-- A store whose only order is `orderA` after it was shipped. -/
def stShipped : State :=
  { orders := [{ orderA with status := .Shipped }], carts := [], medicines := [medA, medB] }

/-- The order that `placeOrder` creates from `cartA` in an empty order
store: the line item of the cart, with no price, and the stored total 20. -/
def orderPlaced : Order :=
  { _id := 1, userId := some 7, items := [⟨1, 2, none⟩], totalAmount := 20,
    status := .Pending, paymentStatus := .Pending,
    address := some "12 Hill Road", contact := some "555-0100" }

/-- A second cart of user 7, with 1 unit of A. -/
def cartSecond : Cart := { _id := 34, userId := some 7, items := [⟨1, 1⟩], totalPrice := 10 }

/-- A store in which user 7 has two carts, `cartA` first. -/
def stTwoCarts : State :=
  { orders := [], carts := [cartA, cartSecond], medicines := [medA, medB] }

/-- Medicine C: price 2.5, stock 10. -/
def medC : Medicine :=
  { _id := 3, productName := "C", price := JSNumber.round 5 (-1), stock := { quantity := 10 } }

/-- Medicine D: price 0.1, that is the binary64 value nearest to one tenth,
3602879701896397 * 2 ^ (-55); stock 10. -/
def medD : Medicine :=
  { _id := 4, productName := "D", price := JSNumber.round 3602879701896397 (-55),
    stock := { quantity := 10 } }

/-- Medicine E: price 9007199254740991 (2 ^ 53 - 1), stock 10. -/
def medE : Medicine :=
  { _id := 5, productName := "E", price := 9007199254740991, stock := { quantity := 10 } }

/-- A cart of user 7 with 3 units of C then 2 units of A, and a stored total
of 1 that is not the total of its line items. -/
def cartCA : Cart := { _id := 35, userId := some 7, items := [⟨3, 3⟩, ⟨1, 2⟩], totalPrice := 1 }

/-- An anonymous cart with 3 units of D. -/
def cartD : Cart := { _id := 36, userId := none, items := [⟨4, 3⟩], totalPrice := 0 }

/-- A store with the five medicines, the order `orderA` and the carts `cartCA`
and `cartD`. -/
def stShop : State :=
  { orders := [orderA], carts := [cartCA, cartD], medicines := [medA, medB, medC, medD, medE] }

/-- A `placeOrderByUserId` request of user 7 for 3 units of C then 2 units
of A. -/
def bodyCA : ByUserIdBody :=
  { userId := some 7, address := some "12 Hill Road", contact := some "555-0100",
    cartItems := some [⟨3, 3⟩, ⟨1, 2⟩] }

/-- A `placeOrderByUserId` request of user 7 for 3 units of E. -/
def bodyE : ByUserIdBody :=
  { userId := some 7, address := some "12 Hill Road", contact := some "555-0100",
    cartItems := some [⟨5, 3⟩] }

/-- The order that both direct-items flows create in `stShop` for 3 units of
C (price 2.5) then 2 units of A (price 10): total 27.5, that is 55 * 2 ^ (-1). -/
def orderCA : Order :=
  { _id := 2, userId := some 7,
    items := [⟨3, 3, some (JSNumber.round 5 (-1))⟩, ⟨1, 2, some 10⟩],
    totalAmount := JSNumber.round 55 (-1),
    status := .Pending, paymentStatus := .Pending,
    address := some "12 Hill Road", contact := some "555-0100" }

/-- The order `orderA` as `getOrders` returns it from `stOrder`, with the
reference of its line item resolved to the document of medicine A. -/
def populatedA : PopulatedOrder :=
  { _id := 1, userId := some 7,
    items := [{ medicineId := some medA, quantity := 2, price := some 10 }],
    totalAmount := 20, status := .Pending, paymentStatus := .Pending,
    address := some "12 Hill Road", contact := some "555-0100" }

/-! ## Derived quantities used in the statements -/

/-- The total quantity the line items request of medicine `id`. -/
def requested (items : List CartItem) (id : Nat) : Int :=
  ((items.filter (fun i => i.medicineId == id)).map (fun i => i.quantity)).sum

/-- The sum, accumulated from `acc` in line-item order and in JavaScript
arithmetic, of stored price times quantity over line items of an order;
undefined as soon as one line item stores no price. -/
def storedTotalFrom : JSNumber → List OrderItem → Option JSNumber
  | acc, [] => some acc
  | acc, i :: rest =>
    match i.price with
    | some p => storedTotalFrom (acc + p * JSNumber.ofInt i.quantity) rest
    | none => none

/-- The sum, accumulated from 0 in line-item order and in JavaScript
arithmetic, of stored price times quantity over the line items of an order. -/
def storedTotal (items : List OrderItem) : Option JSNumber :=
  storedTotalFrom 0 items

/-- The exact sum, in rational arithmetic, of stored price times quantity
over the line items of an order; undefined as soon as one line item stores no
finite price. -/
def exactStoredTotal : List OrderItem → Option ℚ
  | [] => some 0
  | i :: rest =>
    match i.price.bind JSNumber.toRat?, exactStoredTotal rest with
    | some p, some t => some (p * (i.quantity : ℚ) + t)
    | _, _ => none

/-- The catalog price of a medicine, when the medicine exists. -/
def catalogPrice (ms : List Medicine) (id : Nat) : Option JSNumber :=
  (Medicine.findById ms id).map (fun m => m.price)

/-- The catalog quantity of a medicine, when the medicine exists. -/
def catalogQuantity (ms : List Medicine) (id : Nat) : Option Int :=
  (Medicine.findById ms id).map (fun m => m.stock.quantity)

/-- The order created by a response, when the response is a 201. -/
def createdOrder (r : Response) : Option Order :=
  match r.status, r.body with
  | 201, .messageOrder _ o => some o
  | _, _ => none

/-- The cart store with every stored total rewritten by `f`. -/
def retotal (f : JSNumber → JSNumber) (cs : List Cart) : List Cart :=
  cs.map (fun c => { c with totalPrice := f c.totalPrice })

/-- The line item built by the direct-items flows for a line item of the
request: same reference and quantity, with the catalog price as its price. -/
def snapshot (ms : List Medicine) (i : CartItem) : OrderItem :=
  { medicineId := i.medicineId, quantity := i.quantity, price := catalogPrice ms i.medicineId }

/-- The sum, accumulated from `acc` in line-item order and in JavaScript
arithmetic, of catalog price times quantity over line items of a request;
undefined as soon as one line item references a medicine that does not
exist. -/
def catalogTotalFrom (ms : List Medicine) : JSNumber → List CartItem → Option JSNumber
  | acc, [] => some acc
  | acc, i :: rest =>
    match catalogPrice ms i.medicineId with
    | some p => catalogTotalFrom ms (acc + p * JSNumber.ofInt i.quantity) rest
    | none => none

/-- The sum, accumulated from 0 in line-item order and in JavaScript
arithmetic, of catalog price times quantity over the line items of a
request. -/
def catalogTotal (ms : List Medicine) (items : List CartItem) : Option JSNumber :=
  catalogTotalFrom ms 0 items

/-- The exact sum, in rational arithmetic, of catalog price times quantity
over the line items of a request; undefined as soon as one line item
references a medicine with no finite price. -/
def exactCatalogTotal (ms : List Medicine) : List CartItem → Option ℚ
  | [] => some 0
  | i :: rest =>
    match (catalogPrice ms i.medicineId).bind JSNumber.toRat?, exactCatalogTotal ms rest with
    | some p, some t => some (p * (i.quantity : ℚ) + t)
    | _, _ => none

/-! ## Lemmas on the number model -/

theorem JSNumber.searchTop_spec (fuel n j : Nat) (h : n < 2 ^ 2 ^ (j + fuel)) :
    n < 2 ^ 2 ^ JSNumber.searchTop fuel n j := by
  induction fuel generalizing j with
  | zero => simpa [JSNumber.searchTop] using h
  | succ fuel ih =>
    unfold JSNumber.searchTop
    split
    · assumption
    · apply ih
      have e : j + 1 + fuel = j + (fuel + 1) := by omega
      rw [e]
      exact h

theorem JSNumber.refine_spec (i n k : Nat) (hk : 2 ^ k ≤ n) (hn : n < 2 ^ (k + 2 ^ i)) :
    2 ^ JSNumber.refine i n k ≤ n ∧ n < 2 ^ (JSNumber.refine i n k + 1) := by
  induction i generalizing k with
  | zero => simpa [JSNumber.refine] using ⟨hk, hn⟩
  | succ i ih =>
    unfold JSNumber.refine
    split
    · next hge =>
      apply ih _ hge
      have e : k + 2 ^ i + 2 ^ i = k + 2 ^ (i + 1) := by rw [pow_succ]; omega
      rw [e]
      exact hn
    · next hlt =>
      exact ih k hk (by omega)

/-- The position `leadingBit n` is that of the leading binary digit of a
positive `n`. -/
theorem JSNumber.leadingBit_spec (n : Nat) (h : 0 < n) :
    2 ^ JSNumber.leadingBit n ≤ n ∧ n < 2 ^ (JSNumber.leadingBit n + 1) := by
  unfold JSNumber.leadingBit
  apply JSNumber.refine_spec
  · simpa using h
  · rw [Nat.zero_add]
    apply JSNumber.searchTop_spec
    rw [Nat.zero_add]
    calc n < 2 ^ n := Nat.lt_two_pow n
      _ ≤ 2 ^ 2 ^ n := Nat.pow_le_pow_right (by decide) (Nat.lt_two_pow n).le

/-! ## Lemmas on the store operations -/

theorem Medicine.findById_cons (m : Medicine) (ms : List Medicine) (j : Nat) :
    Medicine.findById (m :: ms) j = if m._id = j then some m else Medicine.findById ms j := by
  unfold Medicine.findById
  by_cases h : m._id = j <;> simp [List.find?_cons, h]

theorem Medicine.findById_findByIdAndUpdate (ms : List Medicine) (id : Nat) (d : Int) (j : Nat) :
    Medicine.findById (Medicine.findByIdAndUpdate ms id d) j =
      if j = id then (Medicine.findById ms j).map (fun m => m.inc d)
      else Medicine.findById ms j := by
  induction ms with
  | nil => simp [Medicine.findById, Medicine.findByIdAndUpdate]
  | cons m ms ih =>
    by_cases hm : m._id = id
    · by_cases hj : j = id
      · subst hj
        have hi : (m.inc d)._id = j := hm
        simp [Medicine.findByIdAndUpdate, Medicine.findById_cons, hm, hi]
      · have hne : ¬ m._id = j := fun h => hj (h.symm.trans hm)
        have hi : ¬ (m.inc d)._id = j := hne
        have hij : ¬ id = j := fun h => hj h.symm
        simp [Medicine.findByIdAndUpdate, Medicine.findById_cons, hm, hj, hi, hij]
    · by_cases hmj : m._id = j
      · have hj : ¬ j = id := fun h => hm (hmj.trans h)
        simp [Medicine.findByIdAndUpdate, Medicine.findById_cons, hm, hmj, hj]
      · simp only [Medicine.findByIdAndUpdate, hm, if_false, Medicine.findById_cons, hmj]
        exact ih

theorem Medicine.findById_id (ms : List Medicine) (id : Nat) (m : Medicine)
    (h : Medicine.findById ms id = some m) : m._id = id := by
  unfold Medicine.findById at h
  have := List.find?_some h
  simpa using this

theorem catalogQuantity_findByIdAndUpdate (ms : List Medicine) (id : Nat) (d : Int) (j : Nat) :
    catalogQuantity (Medicine.findByIdAndUpdate ms id d) j =
      if j = id then (catalogQuantity ms j).map (fun q => q + d) else catalogQuantity ms j := by
  unfold catalogQuantity
  rw [Medicine.findById_findByIdAndUpdate]
  split
  · cases Medicine.findById ms j <;> simp [Medicine.inc]
  · rfl

theorem catalogPrice_findByIdAndUpdate (ms : List Medicine) (id : Nat) (d : Int) (j : Nat) :
    catalogPrice (Medicine.findByIdAndUpdate ms id d) j = catalogPrice ms j := by
  unfold catalogPrice
  rw [Medicine.findById_findByIdAndUpdate]
  split
  · cases Medicine.findById ms j <;> simp [Medicine.inc]
  · rfl

theorem requested_cons (item : CartItem) (rest : List CartItem) (j : Nat) :
    requested (item :: rest) j =
      (if item.medicineId = j then item.quantity else 0) + requested rest j := by
  unfold requested
  by_cases h : item.medicineId = j
  · simp [List.filter_cons, h]
  · simp [List.filter_cons, h]

theorem catalogQuantity_reduceStock (items : List CartItem) (ms : List Medicine) (j : Nat) :
    catalogQuantity (reduceStock ms items) j =
      (catalogQuantity ms j).map (fun q => q - requested items j) := by
  induction items generalizing ms with
  | nil => cases h : catalogQuantity ms j <;> simp [reduceStock, requested, h]
  | cons item rest ih =>
    rw [reduceStock, ih, catalogQuantity_findByIdAndUpdate, requested_cons]
    by_cases h : item.medicineId = j
    · subst h
      cases hq : catalogQuantity ms item.medicineId <;> simp [hq]
      omega
    · have hj : ¬ j = item.medicineId := fun e => h e.symm
      cases hq : catalogQuantity ms j <;> simp [h, hj, hq]

theorem catalogPrice_reduceStock (items : List CartItem) (ms : List Medicine) (j : Nat) :
    catalogPrice (reduceStock ms items) j = catalogPrice ms j := by
  induction items generalizing ms with
  | nil => rfl
  | cons item rest ih => rw [reduceStock, ih, catalogPrice_findByIdAndUpdate]

theorem findById_reduceStock_of_not_mem (items : List CartItem) (ms : List Medicine) (id : Nat)
    (h : ∀ item ∈ items, item.medicineId ≠ id) :
    Medicine.findById (reduceStock ms items) id = Medicine.findById ms id := by
  induction items generalizing ms with
  | nil => rfl
  | cons item rest ih =>
    have hi : ¬ id = item.medicineId := fun e => h item (List.mem_cons_self _ _) e.symm
    rw [reduceStock, ih _ (fun i hmem => h i (List.mem_cons_of_mem _ hmem)),
      Medicine.findById_findByIdAndUpdate, if_neg hi]

/-- A document found by `find?` splits the collection at its first match,
and `eraseP` removes exactly that document. -/
theorem find_eraseP_split {α : Type} (p : α → Bool) (l : List α) (a : α)
    (h : l.find? p = some a) :
    ∃ pre post, l = pre ++ a :: post ∧ (∀ x ∈ pre, p x = false) ∧ l.eraseP p = pre ++ post := by
  induction l with
  | nil => simp at h
  | cons x xs ih =>
    by_cases hx : p x = true
    · rw [List.find?_cons_of_pos _ hx] at h
      cases h
      exact ⟨[], xs, rfl, by simp, by simp [hx]⟩
    · rw [List.find?_cons_of_neg _ hx] at h
      obtain ⟨pre, post, h1, h2, h3⟩ := ih h
      refine ⟨x :: pre, post, by simp [h1], ?_, by simp [hx, h3]⟩
      intro y hy
      rcases List.mem_cons.mp hy with rfl | hy
      · simpa using hx
      · exact h2 y hy

theorem Order.findById_order_cons (o : Order) (os : List Order) (j : Nat) :
    Order.findById (o :: os) j = if o._id = j then some o else Order.findById os j := by
  unfold Order.findById
  by_cases h : o._id = j <;> simp [List.find?_cons, h]

/-- Saving a changed copy of a stored order replaces the first document with
its identifier and nothing else. -/
theorem Order.save_split (os : List Order) (id : Nat) (o n : Order)
    (h : Order.findById os id = some o) (hn : n._id = id) :
    ∃ pre post, os = pre ++ o :: post ∧ (∀ x ∈ pre, x._id ≠ id) ∧
      Order.save os n = pre ++ n :: post := by
  induction os with
  | nil => simp [Order.findById] at h
  | cons x xs ih =>
    rw [Order.findById_order_cons] at h
    by_cases hx : x._id = id
    · rw [if_pos hx] at h
      cases h
      exact ⟨[], xs, rfl, by simp, by simp [Order.save, hx, hn]⟩
    · rw [if_neg hx] at h
      obtain ⟨pre, post, h1, h2, h3⟩ := ih h
      have hxn : ¬ x._id = n._id := by rw [hn]; exact hx
      refine ⟨x :: pre, post, by simp [h1], ?_, by simp [Order.save, hxn, h3]⟩
      intro y hy
      rcases List.mem_cons.mp hy with rfl | hy
      · exact hx
      · exact h2 y hy

/-- The lookup of an identifier in a collection split at its first match. -/
theorem Order.findById_split (pre post : List Order) (id : Nat) (n : Order)
    (hpre : ∀ x ∈ pre, x._id ≠ id) (hn : n._id = id) :
    Order.findById (pre ++ n :: post) id = some n := by
  induction pre with
  | nil => simp [Order.findById_order_cons, hn]
  | cons x xs ih =>
    have hx : ¬ x._id = id := hpre x (List.mem_cons_self _ _)
    rw [List.cons_append, Order.findById_order_cons, if_neg hx]
    exact ih (fun y hy => hpre y (List.mem_cons_of_mem _ hy))

/-- The stock check of `placeOrder` passes exactly when every line item
references an existing medicine with enough stock. -/
theorem checkStock_eq_none_iff (ms : List Medicine) (items : List CartItem) :
    checkStock ms items = none ↔
      ∀ item ∈ items, ∃ m, Medicine.findById ms item.medicineId = some m ∧
        item.quantity ≤ m.stock.quantity := by
  induction items with
  | nil => simp [checkStock]
  | cons item rest ih =>
    unfold checkStock
    cases hm : Medicine.findById ms item.medicineId with
    | none =>
      simp only [List.mem_cons, forall_eq_or_imp, hm]
      simp
    | some m =>
      by_cases hq : m.stock.quantity < item.quantity
      · simp only [hq, if_true, List.mem_cons, forall_eq_or_imp, hm]
        simp
        intro h
        omega
      · simp only [hq, if_false, List.mem_cons, forall_eq_or_imp, hm, ih]
        simp
        intro _
        omega

/-- When every line item references an existing medicine and some line item
is short of stock, the stock check of `placeOrder` returns 400 with the name
of the medicine of the first short line item. -/
theorem checkStock_short (ms : List Medicine) (items : List CartItem)
    (hex : ∀ item ∈ items, (Medicine.findById ms item.medicineId).isSome = true)
    (hshort : ∃ item ∈ items, ∃ m, Medicine.findById ms item.medicineId = some m ∧
      m.stock.quantity < item.quantity) :
    ∃ pre it post m, items = pre ++ it :: post ∧
      (∀ x ∈ pre, ∃ mx, Medicine.findById ms x.medicineId = some mx ∧
        x.quantity ≤ mx.stock.quantity) ∧
      Medicine.findById ms it.medicineId = some m ∧ m.stock.quantity < it.quantity ∧
      checkStock ms items = some ⟨400, .message ("Not enough stock for " ++ m.productName)⟩ := by
  induction items with
  | nil =>
    obtain ⟨item, hmem, _⟩ := hshort
    simp at hmem
  | cons item rest ih =>
    have hsome := hex item (List.mem_cons_self _ _)
    cases hm : Medicine.findById ms item.medicineId with
    | none => simp [hm] at hsome
    | some m =>
      by_cases hq : m.stock.quantity < item.quantity
      · exact ⟨[], item, rest, m, rfl, by simp, hm, hq, by simp [checkStock, hm, hq]⟩
      · have hrest : ∃ i ∈ rest, ∃ m, Medicine.findById ms i.medicineId = some m ∧
            m.stock.quantity < i.quantity := by
          obtain ⟨i, hi, mi, hmi, hlt⟩ := hshort
          rcases List.mem_cons.mp hi with rfl | hi
          · rw [hm] at hmi
            cases hmi
            exact absurd hlt hq
          · exact ⟨i, hi, mi, hmi, hlt⟩
        obtain ⟨pre, it, post, mi, h1, h2, h3, h4, h5⟩ :=
          ih (fun i hi => hex i (List.mem_cons_of_mem _ hi)) hrest
        refine ⟨item :: pre, it, post, mi, by simp [h1], ?_, h3, h4, ?_⟩
        · intro x hx
          rcases List.mem_cons.mp hx with rfl | hx
          · exact ⟨m, hm, by omega⟩
          · exact h2 x hx
        · simp [checkStock, hm, hq, h5]

/-- An increment that keeps the quantity of the document it finds
non-negative keeps every quantity of the catalog non-negative. -/
theorem findByIdAndUpdate_nonneg (ms : List Medicine) (id : Nat) (d : Int) (m0 : Medicine)
    (hall : ∀ m ∈ ms, 0 ≤ m.stock.quantity)
    (hfind : Medicine.findById ms id = some m0) (hd : 0 ≤ m0.stock.quantity + d) :
    ∀ m ∈ Medicine.findByIdAndUpdate ms id d, 0 ≤ m.stock.quantity := by
  induction ms with
  | nil => simp [Medicine.findById] at hfind
  | cons x xs ih =>
    rw [Medicine.findById_cons] at hfind
    by_cases hx : x._id = id
    · rw [if_pos hx] at hfind
      cases hfind
      intro m hm
      simp only [Medicine.findByIdAndUpdate, hx, if_true, List.mem_cons] at hm
      rcases hm with rfl | hm
      · exact hd
      · exact hall m (List.mem_cons_of_mem _ hm)
    · rw [if_neg hx] at hfind
      intro m hm
      simp only [Medicine.findByIdAndUpdate, hx, if_false, List.mem_cons] at hm
      rcases hm with rfl | hm
      · exact hall _ (List.mem_cons_self _ _)
      · exact ih (fun y hy => hall y (List.mem_cons_of_mem _ hy)) hfind m hm

/-- The loop of the direct-items flows keeps every catalog quantity
non-negative, however it is left. -/
theorem itemsLoop_nonneg (items : List CartItem) (ms : List Medicine) (t : JSNumber)
    (f : List OrderItem) (hall : ∀ m ∈ ms, 0 ≤ m.stock.quantity) :
    ∀ m ∈ (itemsLoop items ms t f).1, 0 ≤ m.stock.quantity := by
  induction items generalizing ms t f with
  | nil => simpa [itemsLoop] using hall
  | cons item rest ih =>
    unfold itemsLoop
    cases hm : Medicine.findById ms item.medicineId with
    | none => simpa using hall
    | some medicine =>
      by_cases hq : medicine.stock.quantity < item.quantity
      · simpa [hq] using hall
      · simp only [hq, if_false]
        apply ih
        exact findByIdAndUpdate_nonneg ms item.medicineId (-item.quantity) medicine hall hm
          (by omega)

/-- An early return of the loop of the direct-items flows is a 400. -/
theorem itemsLoop_error_status (items : List CartItem) (ms : List Medicine) (t : JSNumber)
    (f : List OrderItem) (ms1 : List Medicine) (r : Response)
    (h : itemsLoop items ms t f = (ms1, .error r)) : r.status = 400 := by
  induction items generalizing ms t f with
  | nil => simp [itemsLoop] at h
  | cons item rest ih =>
    unfold itemsLoop at h
    cases hm : Medicine.findById ms item.medicineId with
    | none =>
      simp only [hm, Prod.mk.injEq, Except.error.injEq] at h
      rw [← h.2]
    | some medicine =>
      by_cases hq : medicine.stock.quantity < item.quantity
      · simp only [hm, hq, if_true, Prod.mk.injEq, Except.error.injEq] at h
        rw [← h.2]
      · simp only [hm, hq, if_false] at h
        exact ih _ _ _ h

theorem catalogTotalFrom_findByIdAndUpdate (ms : List Medicine) (id : Nat) (d : Int)
    (acc : JSNumber) (l : List CartItem) :
    catalogTotalFrom (Medicine.findByIdAndUpdate ms id d) acc l = catalogTotalFrom ms acc l := by
  induction l generalizing acc with
  | nil => rfl
  | cons x xs ih =>
    simp only [catalogTotalFrom, catalogPrice_findByIdAndUpdate]
    cases catalogPrice ms x.medicineId with
    | none => rfl
    | some p => exact ih _

/-- What the loop of the direct-items flows leaves when it runs to the end:
the line items of the request, in order, with the catalog price as their
price, appended to `finalItems`; and the total accumulated from `totalAmount`
over the line items, which is also the total accumulated over the line items
it appended. -/
theorem itemsLoop_ok (items : List CartItem) (ms : List Medicine) (t : JSNumber)
    (f : List OrderItem) (ms1 : List Medicine) (t1 : JSNumber) (f1 : List OrderItem)
    (h : itemsLoop items ms t f = (ms1, .ok (t1, f1))) :
    f1 = f ++ items.map (snapshot ms) ∧
      (∀ i ∈ items, (catalogPrice ms i.medicineId).isSome = true) ∧
      catalogTotalFrom ms t items = some t1 ∧
      storedTotalFrom t (items.map (snapshot ms)) = some t1 := by
  induction items generalizing ms t f with
  | nil =>
    simp only [itemsLoop, Prod.mk.injEq, Except.ok.injEq] at h
    obtain ⟨-, rfl, rfl⟩ := h
    simp [catalogTotalFrom, storedTotalFrom]
  | cons item rest ih =>
    unfold itemsLoop at h
    cases hm : Medicine.findById ms item.medicineId with
    | none => simp [hm] at h
    | some medicine =>
      by_cases hq : medicine.stock.quantity < item.quantity
      · simp [hm, hq] at h
      · simp only [hm, hq, if_false] at h
        obtain ⟨h1, h2, h3, h4⟩ := ih _ _ _ h
        have hp : catalogPrice ms item.medicineId = some medicine.price := by
          simp [catalogPrice, hm]
        have hsnap : ∀ i : CartItem,
            snapshot (Medicine.findByIdAndUpdate ms item.medicineId (-item.quantity)) i =
              snapshot ms i := by
          intro i
          simp [snapshot, catalogPrice_findByIdAndUpdate]
        refine ⟨?_, ?_, ?_, ?_⟩
        · rw [h1, funext hsnap]
          simp [snapshot, hp]
        · intro i hi
          rcases List.mem_cons.mp hi with rfl | hi
          · simp [hp]
          · have := h2 i hi
            rwa [catalogPrice_findByIdAndUpdate] at this
        · rw [catalogTotalFrom_findByIdAndUpdate] at h3
          simp only [catalogTotalFrom, hp, h3]
        · rw [funext hsnap] at h4
          simp only [List.map_cons, storedTotalFrom, snapshot, hp]
          exact h4

theorem createdOrder_of_status_ne (r : Response) (h : r.status ≠ 201) :
    createdOrder r = none := by
  obtain ⟨status, body⟩ := r
  unfold createdOrder
  split
  · simp_all
  · rfl

/-- A 201 of `placeOrderByUserId` comes from a run of the loop to its end, over
the line items of the request and from the stored catalog. -/
theorem placeOrderByUserId_created (st : State) (body : ByUserIdBody) (o : Order)
    (h : createdOrder (placeOrderByUserId st body).1 = some o) :
    ∃ userId items ms1, body.userId = some userId ∧ body.cartItems = some items ∧
      itemsLoop items st.medicines 0 [] = (ms1, .ok (o.totalAmount, o.items)) ∧
      o.userId = some userId ∧
      (placeOrderByUserId st body).2 =
        { st with orders := st.orders ++ [o], medicines := ms1 } := by
  obtain ⟨uid, addr, con, citems⟩ := body
  cases uid with
  | none => simp [placeOrderByUserId, createdOrder] at h
  | some userId =>
    cases citems with
    | none => simp [placeOrderByUserId, createdOrder] at h
    | some items =>
      by_cases hg : truthy addr = false ∨ truthy con = false ∨ items.length = 0
      · simp only [placeOrderByUserId, if_pos hg] at h
        simp [createdOrder] at h
      · cases hloop : itemsLoop items st.medicines 0 [] with
        | mk ms1 res =>
          cases res with
          | error r =>
            have hr : r.status ≠ 201 := by
              rw [itemsLoop_error_status _ _ _ _ _ _ hloop]
              decide
            simp only [placeOrderByUserId, if_neg hg, hloop] at h
            rw [createdOrder_of_status_ne r hr] at h
            cases h
          | ok v =>
            obtain ⟨t1, f1⟩ := v
            simp only [placeOrderByUserId, if_neg hg, hloop, createdOrder, Option.some.injEq] at h
            subst h
            refine ⟨userId, items, ms1, rfl, rfl, hloop, rfl, ?_⟩
            simp only [placeOrderByUserId, if_neg hg, hloop, Order.insert]

/-- A 201 of `placeOrderUsingCartId` comes from a run of the loop to its end,
over the line items of the cart with the given identifier and from the stored
catalog. -/
theorem placeOrderUsingCartId_created (st : State) (body : UsingCartIdBody) (o : Order)
    (h : createdOrder (placeOrderUsingCartId st body).1 = some o) :
    ∃ cartId cart ms1, body.cartId = some cartId ∧
      Cart.findById st.carts cartId = some cart ∧
      itemsLoop cart.items st.medicines 0 [] = (ms1, .ok (o.totalAmount, o.items)) ∧
      o.userId = cart.userId ∧
      (placeOrderUsingCartId st body).2 =
        { orders := st.orders ++ [o], carts := Cart.findByIdAndDelete st.carts cartId,
          medicines := ms1 } := by
  obtain ⟨cid, addr, con⟩ := body
  cases cid with
  | none => simp [placeOrderUsingCartId, createdOrder] at h
  | some cartId =>
    by_cases hg : truthy addr = false ∨ truthy con = false
    · simp only [placeOrderUsingCartId, if_pos hg] at h
      simp [createdOrder] at h
    · cases hc : Cart.findById st.carts cartId with
      | none =>
        simp only [placeOrderUsingCartId, if_neg hg, hc] at h
        simp [createdOrder] at h
      | some cart =>
        by_cases hlen : cart.items.length = 0
        · simp only [placeOrderUsingCartId, if_neg hg, hc, if_pos hlen] at h
          simp [createdOrder] at h
        · cases hloop : itemsLoop cart.items st.medicines 0 [] with
          | mk ms1 res =>
            cases res with
            | error r =>
              have hr : r.status ≠ 201 := by
                rw [itemsLoop_error_status _ _ _ _ _ _ hloop]
                decide
              simp only [placeOrderUsingCartId, if_neg hg, hc, if_neg hlen, hloop] at h
              rw [createdOrder_of_status_ne r hr] at h
              cases h
            | ok v =>
              obtain ⟨t1, f1⟩ := v
              simp only [placeOrderUsingCartId, if_neg hg, hc, if_neg hlen, hloop, createdOrder,
                Option.some.injEq] at h
              subst h
              refine ⟨cartId, cart, ms1, rfl, hc, hloop, rfl, ?_⟩
              simp only [placeOrderUsingCartId, if_neg hg, hc, if_neg hlen, hloop, Order.insert]

/-- An early return of the stock check of `placeOrder` is a 400 or a 500. -/
theorem checkStock_status (ms : List Medicine) (items : List CartItem) (r : Response)
    (h : checkStock ms items = some r) : r.status = 400 ∨ r.status = 500 := by
  induction items with
  | nil => simp [checkStock] at h
  | cons item rest ih =>
    unfold checkStock at h
    cases hm : Medicine.findById ms item.medicineId with
    | none =>
      simp only [hm, Option.some.injEq] at h
      rw [← h]
      right
      rfl
    | some medicine =>
      by_cases hq : medicine.stock.quantity < item.quantity
      · simp only [hm, hq, if_true, Option.some.injEq] at h
        rw [← h]
        left
        rfl
      · simp only [hm, hq, if_false] at h
        exact ih h

/-! ## placeOrder -/

/-- C4: when the caller has a stored cart whose line items all reference
existing medicines and some line item requests more than the catalog quantity
of its medicine, `placeOrder` responds 400 with the name of the medicine of
the first such line item and leaves the three collections as they were: no
order is created, no catalog quantity changes and the cart is not deleted. -/
theorem placeOrder_insufficient_stock (st : State) (userId : Nat)
    (address contact : Option String) (cart : Cart)
    (hcart : Cart.findOne st.carts userId = some cart)
    (hex : ∀ item ∈ cart.items, (Medicine.findById st.medicines item.medicineId).isSome = true)
    (hshort : ∃ item ∈ cart.items, ∃ m,
      Medicine.findById st.medicines item.medicineId = some m ∧
        m.stock.quantity < item.quantity) :
    ∃ pre it post m, cart.items = pre ++ it :: post ∧
      (∀ x ∈ pre, ∃ mx, Medicine.findById st.medicines x.medicineId = some mx ∧
        x.quantity ≤ mx.stock.quantity) ∧
      Medicine.findById st.medicines it.medicineId = some m ∧
      m.stock.quantity < it.quantity ∧
      placeOrder st userId address contact =
        (⟨400, .message ("Not enough stock for " ++ m.productName)⟩, st) := by
  obtain ⟨pre, it, post, m, h1, h2, h3, h4, h5⟩ :=
    checkStock_short st.medicines cart.items hex hshort
  refine ⟨pre, it, post, m, h1, h2, h3, h4, ?_⟩
  have hlen : ¬ cart.items.length = 0 := by simp [h1]
  simp [placeOrder, hcart, hlen, h5]

/-- Scenario of C4: the cart holds 2 units of A (stock 5) and 1 unit of B
(stock 0). -/
theorem placeOrder_insufficient_stock_witness :
    ∃ pre it post m, cartAB.items = pre ++ it :: post ∧
      (∀ x ∈ pre, ∃ mx, Medicine.findById stAB.medicines x.medicineId = some mx ∧
        x.quantity ≤ mx.stock.quantity) ∧
      Medicine.findById stAB.medicines it.medicineId = some m ∧
      m.stock.quantity < it.quantity ∧
      placeOrder stAB 7 (some "12 Hill Road") (some "555-0100") =
        (⟨400, .message ("Not enough stock for " ++ m.productName)⟩, stAB) :=
  placeOrder_insufficient_stock stAB 7 (some "12 Hill Road") (some "555-0100") cartAB
    (by decide) (by decide) ⟨⟨2, 1⟩, by decide, medB, by decide, by decide⟩

/-- C5, refuted: user 7 has two stored carts; `placeOrder` responds 201 from
the first one and deletes it, and the caller still has a cart afterwards, the
second one. -/
theorem placeOrder_second_cart_remains :
    Cart.findOne stTwoCarts.carts 7 = some cartA ∧
      (placeOrder stTwoCarts 7 (some "12 Hill Road") (some "555-0100")).1.status = 201 ∧
      (placeOrder stTwoCarts 7 (some "12 Hill Road") (some "555-0100")).2.carts =
        [cartSecond] ∧
      Cart.findOne (placeOrder stTwoCarts 7 (some "12 Hill Road") (some "555-0100")).2.carts 7 =
        some cartSecond := by
  decide

/-- C5, as amended: when the caller has a stored cart with at least one line
item and every line item references an existing medicine with catalog
quantity at least the requested quantity, `placeOrder` responds 201 with a new
order that is appended to the orders, is owned by the caller, holds the line
items of the cart (same references and quantities, in the same order), has the
stored total of the cart as its total, and is Pending with payment Pending;
every catalog quantity is reduced by the total quantity the cart requests of
that medicine (medicines the cart does not reference keep their document); and
the cart that was read, the first stored cart of the caller, is removed from
the carts, every other cart being kept, so that the caller has no cart
afterwards exactly when that was the only cart of the caller. -/
theorem placeOrder_success (st : State) (userId : Nat)
    (address contact : Option String) (cart : Cart)
    (hcart : Cart.findOne st.carts userId = some cart)
    (hne : cart.items ≠ [])
    (hok : ∀ item ∈ cart.items, ∃ m,
      Medicine.findById st.medicines item.medicineId = some m ∧
        item.quantity ≤ m.stock.quantity) :
    ∃ order : Order,
      (placeOrder st userId address contact).1 =
        ⟨201, .messageOrder "Order placed successfully" order⟩ ∧
      (placeOrder st userId address contact).2.orders = st.orders ++ [order] ∧
      order.userId = some userId ∧
      order.items.map (fun i => (i.medicineId, i.quantity)) =
        cart.items.map (fun i => (i.medicineId, i.quantity)) ∧
      order.totalAmount = cart.totalPrice ∧
      order.status = .Pending ∧ order.paymentStatus = .Pending ∧
      (∀ id, catalogQuantity (placeOrder st userId address contact).2.medicines id =
        (catalogQuantity st.medicines id).map (fun q => q - requested cart.items id)) ∧
      (∀ id, (∀ item ∈ cart.items, item.medicineId ≠ id) →
        Medicine.findById (placeOrder st userId address contact).2.medicines id =
          Medicine.findById st.medicines id) ∧
      (∃ pre post, st.carts = pre ++ cart :: post ∧
        (∀ c ∈ pre, c.userId ≠ some userId) ∧
        (placeOrder st userId address contact).2.carts = pre ++ post) ∧
      (Cart.findOne (placeOrder st userId address contact).2.carts userId = none ↔
        st.carts.countP (fun c => c.userId == some userId) = 1) := by
  have hlen : ¬ cart.items.length = 0 := by
    intro h
    exact hne (List.length_eq_zero.mp h)
  have hcheck := (checkStock_eq_none_iff st.medicines cart.items).mpr hok
  obtain ⟨pre, post, hsplit, hpre, herase⟩ :=
    find_eraseP_split (fun c : Cart => c.userId == some userId) st.carts cart hcart
  have hpre2 : ∀ c ∈ pre, c.userId ≠ some userId := by
    intro c hc
    simpa using hpre c hc
  have hres : ∃ o : Order,
      o = { _id := Order.freshId st.orders, userId := some userId,
            items := cart.items.map CartItem.toOrderItem, totalAmount := cart.totalPrice,
            status := .Pending, paymentStatus := .Pending,
            address := address, contact := contact } ∧
      placeOrder st userId address contact =
        (⟨201, .messageOrder "Order placed successfully" o⟩,
          { orders := st.orders ++ [o], carts := pre ++ post,
            medicines := reduceStock st.medicines cart.items }) :=
    ⟨_, rfl, by
      simp [placeOrder, hcart, hlen, hcheck, Order.insert, Cart.findOneAndDelete, herase]⟩
  obtain ⟨o, ho, hres⟩ := hres
  rw [hres]
  subst ho
  have hcartp : (cart.userId == some userId) = true := by
    have := List.find?_some hcart
    simpa using this
  have hpre0 : List.countP (fun c : Cart => c.userId == some userId) pre = 0 :=
    List.countP_eq_zero.mpr (fun c hc => by simpa using hpre c hc)
  have hcount : st.carts.countP (fun c => c.userId == some userId) =
      List.countP (fun c : Cart => c.userId == some userId) post + 1 := by
    rw [hsplit, List.countP_append,
      List.countP_cons_of_pos (fun c : Cart => c.userId == some userId) post hcartp, hpre0]
    omega
  refine ⟨_, rfl, rfl, rfl, ?_, rfl, rfl, rfl, ?_, ?_, ⟨pre, post, hsplit, hpre2, rfl⟩, ?_⟩
  · show (cart.items.map CartItem.toOrderItem).map (fun i => (i.medicineId, i.quantity)) =
      cart.items.map (fun i => (i.medicineId, i.quantity))
    rw [List.map_map]
    rfl
  · intro id
    exact catalogQuantity_reduceStock cart.items st.medicines id
  · intro id hid
    exact findById_reduceStock_of_not_mem cart.items st.medicines id hid
  · show Cart.findOne (pre ++ post) userId = none ↔ _
    rw [hcount]
    constructor
    · intro hnone
      have hall : ∀ c ∈ pre ++ post, ¬ (c.userId == some userId) = true := by
        simpa only [Cart.findOne, List.find?_eq_none] using hnone
      have hpost0 : List.countP (fun c : Cart => c.userId == some userId) post = 0 :=
        List.countP_eq_zero.mpr (fun c hc => hall c (List.mem_append_right pre hc))
      omega
    · intro h1
      have hpost0 : List.countP (fun c : Cart => c.userId == some userId) post = 0 := by omega
      have hpost : ∀ c ∈ post, ¬ (c.userId == some userId) = true :=
        List.countP_eq_zero.mp hpost0
      simp only [Cart.findOne, List.find?_eq_none]
      intro c hc
      rcases List.mem_append.mp hc with h | h
      · simpa using hpre c h
      · exact hpost c h

/-- Scenario of C5: the cart holds 2 units of A (stock 5, price 10) and a
stored total of 20; the order `orderPlaced` is created, 3 units of A remain
and no cart is left. -/
theorem placeOrder_success_witness :
    placeOrder stA 7 (some "12 Hill Road") (some "555-0100") =
        (⟨201, .messageOrder "Order placed successfully" orderPlaced⟩,
          { orders := [orderPlaced], carts := [],
            medicines := [{ medA with stock := { quantity := 3 } }, medB] }) ∧
    ∃ order : Order,
      (placeOrder stA 7 (some "12 Hill Road") (some "555-0100")).1 =
        ⟨201, .messageOrder "Order placed successfully" order⟩ ∧
      (placeOrder stA 7 (some "12 Hill Road") (some "555-0100")).2.orders =
        stA.orders ++ [order] ∧
      order.userId = some 7 ∧
      order.items.map (fun i => (i.medicineId, i.quantity)) =
        cartA.items.map (fun i => (i.medicineId, i.quantity)) ∧
      order.totalAmount = cartA.totalPrice ∧
      order.status = .Pending ∧ order.paymentStatus = .Pending ∧
      (∀ id, catalogQuantity
          (placeOrder stA 7 (some "12 Hill Road") (some "555-0100")).2.medicines id =
        (catalogQuantity stA.medicines id).map (fun q => q - requested cartA.items id)) ∧
      (∀ id, (∀ item ∈ cartA.items, item.medicineId ≠ id) →
        Medicine.findById
            (placeOrder stA 7 (some "12 Hill Road") (some "555-0100")).2.medicines id =
          Medicine.findById stA.medicines id) ∧
      (∃ pre post, stA.carts = pre ++ cartA :: post ∧
        (∀ c ∈ pre, c.userId ≠ some 7) ∧
        (placeOrder stA 7 (some "12 Hill Road") (some "555-0100")).2.carts = pre ++ post) ∧
      (Cart.findOne (placeOrder stA 7 (some "12 Hill Road") (some "555-0100")).2.carts 7 =
          none ↔
        stA.carts.countP (fun c => c.userId == some 7) = 1) :=
  ⟨by decide,
    placeOrder_success stA 7 (some "12 Hill Road") (some "555-0100") cartA
      (by decide) (by decide)
      (by
        intro item hitem
        have hi : item = ⟨1, 2⟩ := by simpa [cartA] using hitem
        subst hi
        exact ⟨medA, by decide, by decide⟩)⟩

/-- C10, evaluated on a cart with two line items of 3 units of A (stock 5):
each line item passes the stock check on its own, `placeOrder` responds 201,
and the catalog quantity of A is -1 afterwards. -/
theorem placeOrder_duplicate_lines_oversell :
    (∀ m ∈ stAA.medicines, 0 ≤ m.stock.quantity) ∧
      (placeOrder stAA 7 (some "12 Hill Road") (some "555-0100")).1.status = 201 ∧
      catalogQuantity stAA.medicines 1 = some 5 ∧
      requested cartAA.items 1 = 6 ∧
      catalogQuantity
        (placeOrder stAA 7 (some "12 Hill Road") (some "555-0100")).2.medicines 1 =
          some (-1) := by
  decide

/-! ## placeOrderByUserId and placeOrderUsingCartId -/

theorem placeOrderByUserId_medicines (st : State) (body : ByUserIdBody) :
    (placeOrderByUserId st body).2.medicines = st.medicines ∨
      ∃ items, (placeOrderByUserId st body).2.medicines =
        (itemsLoop items st.medicines 0 []).1 := by
  obtain ⟨uid, addr, con, citems⟩ := body
  cases uid with
  | none => left; simp [placeOrderByUserId]
  | some userId =>
    cases citems with
    | none => left; simp [placeOrderByUserId]
    | some items =>
      by_cases hg : truthy addr = false ∨ truthy con = false ∨ items.length = 0
      · left
        simp only [placeOrderByUserId, if_pos hg]
      · right
        refine ⟨items, ?_⟩
        cases hloop : itemsLoop items st.medicines 0 [] with
        | mk ms1 res =>
          cases res with
          | error r => simp only [placeOrderByUserId, if_neg hg, hloop]
          | ok v => simp only [placeOrderByUserId, if_neg hg, hloop]

theorem placeOrderUsingCartId_medicines (st : State) (body : UsingCartIdBody) :
    (placeOrderUsingCartId st body).2.medicines = st.medicines ∨
      ∃ items, (placeOrderUsingCartId st body).2.medicines =
        (itemsLoop items st.medicines 0 []).1 := by
  obtain ⟨cid, addr, con⟩ := body
  cases cid with
  | none => left; simp [placeOrderUsingCartId]
  | some cartId =>
    by_cases hg : truthy addr = false ∨ truthy con = false
    · left
      simp only [placeOrderUsingCartId, if_pos hg]
    · cases hc : Cart.findById st.carts cartId with
      | none =>
        left
        simp only [placeOrderUsingCartId, if_neg hg, hc]
      | some cart =>
        by_cases hlen : cart.items.length = 0
        · left
          simp only [placeOrderUsingCartId, if_neg hg, hc, if_pos hlen]
        · right
          refine ⟨cart.items, ?_⟩
          cases hloop : itemsLoop cart.items st.medicines 0 [] with
          | mk ms1 res =>
            cases res with
            | error r => simp only [placeOrderUsingCartId, if_neg hg, hc, if_neg hlen, hloop]
            | ok v => simp only [placeOrderUsingCartId, if_neg hg, hc, if_neg hlen, hloop]

/-- C9: from a catalog in which every quantity is non-negative, every catalog
quantity is non-negative after `placeOrderByUserId` and after
`placeOrderUsingCartId`, for every request (whatever its line items, repeated
medicines included) and whatever the response. -/
theorem direct_items_quantities_nonneg (st : State)
    (hall : ∀ m ∈ st.medicines, 0 ≤ m.stock.quantity) :
    (∀ body, ∀ m ∈ (placeOrderByUserId st body).2.medicines, 0 ≤ m.stock.quantity) ∧
      (∀ body, ∀ m ∈ (placeOrderUsingCartId st body).2.medicines, 0 ≤ m.stock.quantity) := by
  constructor
  · intro body
    rcases placeOrderByUserId_medicines st body with h | ⟨items, h⟩
    · rw [h]
      exact hall
    · rw [h]
      exact itemsLoop_nonneg items st.medicines 0 [] hall
  · intro body
    rcases placeOrderUsingCartId_medicines st body with h | ⟨items, h⟩
    · rw [h]
      exact hall
    · rw [h]
      exact itemsLoop_nonneg items st.medicines 0 [] hall

/-- Scenario of C9: the store with A (stock 5) and B (stock 0); the request
with two line items of 3 units of A fails at the second line item and leaves
2 units of A. -/
theorem direct_items_quantities_nonneg_witness :
    (∀ m ∈ stAB.medicines, 0 ≤ m.stock.quantity) ∧
      (placeOrderByUserId stAB bodyAA).1.status = 400 ∧
      catalogQuantity (placeOrderByUserId stAB bodyAA).2.medicines 1 = some 2 ∧
      ((∀ body, ∀ m ∈ (placeOrderByUserId stAB body).2.medicines, 0 ≤ m.stock.quantity) ∧
        (∀ body, ∀ m ∈ (placeOrderUsingCartId stAB body).2.medicines,
          0 ≤ m.stock.quantity)) :=
  ⟨by decide, by decide, by decide, direct_items_quantities_nonneg stAB (by decide)⟩

/-- C3, evaluated on the scenario of the spec: 2 units of A (stock 5) then 1
unit of B (stock 0).  Both handlers respond 400 and create no order, and the
catalog quantity of A, 5 before the request, is 3 after it. -/
theorem direct_items_partial_decrement :
    catalogQuantity stAB.medicines 1 = some 5 ∧
      ((placeOrderByUserId stAB bodyAB).1 = ⟨400, .message "Not enough stock for B"⟩ ∧
        (placeOrderByUserId stAB bodyAB).2.orders = stAB.orders ∧
        catalogQuantity (placeOrderByUserId stAB bodyAB).2.medicines 1 = some 3) ∧
      ((placeOrderUsingCartId stAB (bodyCart 30)).1 =
          ⟨400, .message "Not enough stock for B"⟩ ∧
        (placeOrderUsingCartId stAB (bodyCart 30)).2.orders = stAB.orders ∧
        catalogQuantity (placeOrderUsingCartId stAB (bodyCart 30)).2.medicines 1 =
          some 3) := by
  decide

theorem Cart.findById_retotal (f : JSNumber → JSNumber) (cs : List Cart) (id : Nat) :
    Cart.findById (retotal f cs) id =
      (Cart.findById cs id).map (fun c => { c with totalPrice := f c.totalPrice }) := by
  unfold Cart.findById retotal
  rw [List.find?_map]
  rfl

theorem Cart.findByIdAndDelete_retotal (f : JSNumber → JSNumber) (cs : List Cart) (id : Nat) :
    Cart.findByIdAndDelete (retotal f cs) id = retotal f (Cart.findByIdAndDelete cs id) := by
  unfold Cart.findByIdAndDelete retotal
  rw [List.eraseP_map]
  rfl

/-- The response of `placeOrderUsingCartId`, the orders and the catalog it
leaves do not depend on the stored totals of the carts. -/
theorem placeOrderUsingCartId_retotal (f : JSNumber → JSNumber) (st : State) (body : UsingCartIdBody) :
    placeOrderUsingCartId { st with carts := retotal f st.carts } body =
      ((placeOrderUsingCartId st body).1,
        { (placeOrderUsingCartId st body).2 with
          carts := retotal f (placeOrderUsingCartId st body).2.carts }) := by
  obtain ⟨cid, addr, con⟩ := body
  cases cid with
  | none => simp [placeOrderUsingCartId]
  | some cartId =>
    by_cases hg : truthy addr = false ∨ truthy con = false
    · simp only [placeOrderUsingCartId, if_pos hg]
    · cases hc : Cart.findById st.carts cartId with
      | none =>
        simp only [placeOrderUsingCartId, if_neg hg, hc, Cart.findById_retotal, Option.map_none']
      | some cart =>
        by_cases hlen : cart.items.length = 0
        · simp only [placeOrderUsingCartId, if_neg hg, hc, Cart.findById_retotal,
            Option.map_some', if_pos hlen]
        · cases hloop : itemsLoop cart.items st.medicines 0 [] with
          | mk ms1 res =>
            cases res with
            | error r =>
              simp only [placeOrderUsingCartId, if_neg hg, hc, Cart.findById_retotal,
                Option.map_some', if_neg hlen, hloop]
            | ok v =>
              simp only [placeOrderUsingCartId, if_neg hg, hc, Cart.findById_retotal,
                Option.map_some', if_neg hlen, hloop, Cart.findByIdAndDelete_retotal]

/-- C6, refuted: the cart `cartD` holds 3 units of D, whose catalog price is
the number 0.1.  `placeOrderUsingCartId` responds 201 with the total
0.30000000000000004 (5404319552844596 * 2 ^ (-54)), the rounded product, while
the sum of catalog price times quantity is three times the price exactly. -/
theorem placeOrderUsingCartId_total_rounded :
    ∃ o, createdOrder (placeOrderUsingCartId stShop (bodyCart 36)).1 = some o ∧
      o.totalAmount = .finite 5404319552844596 (-54) ∧
      o.totalAmount.toRat? = some (10808639105689192 / 36028797018963968) ∧
      exactCatalogTotal stShop.medicines cartD.items =
        some (10808639105689191 / 36028797018963968) ∧
      o.totalAmount.toRat? ≠ exactCatalogTotal stShop.medicines cartD.items := by
  have hprice : catalogPrice stShop.medicines 4 = some (.finite 7205759403792794 (-56)) := by
    decide
  have hexact : exactCatalogTotal stShop.medicines cartD.items =
      some (10808639105689191 / 36028797018963968) := by
    simp only [exactCatalogTotal, cartD, hprice, Option.bind, JSNumber.toRat?]
    norm_num
  refine ⟨{ _id := 2, userId := none, items := [⟨4, 3, some (.finite 7205759403792794 (-56))⟩],
            totalAmount := .finite 5404319552844596 (-54),
            status := .Pending, paymentStatus := .Pending,
            address := some "12 Hill Road", contact := some "555-0100" },
    by decide, rfl, ?_, hexact, ?_⟩
  · simp only [JSNumber.toRat?]
    norm_num
  · rw [hexact]
    simp only [JSNumber.toRat?]
    norm_num

/-- C6, as amended: whenever `placeOrderByUserId` or `placeOrderUsingCartId`
responds 201, the created order is the one appended to the orders, its line
items are the input line items (of the request, respectively of the cart with
the given identifier) in the same order, each with the same medicine reference
and quantity and with the catalog price of that medicine as its price, and its
total is the sum of catalog price times quantity accumulated from 0 over the
input line items in their order in JavaScript number arithmetic (each product
and each partial sum rounded to binary64).  The result of
`placeOrderUsingCartId` does not depend on the stored totals of the carts:
rewriting them all changes neither the response, nor the orders, nor the
catalog. -/
theorem direct_items_order_contents (st : State) :
    (∀ body o, createdOrder (placeOrderByUserId st body).1 = some o →
      ∃ items, body.cartItems = some items ∧
        (placeOrderByUserId st body).2.orders = st.orders ++ [o] ∧
        o.items = items.map (fun i =>
          { medicineId := i.medicineId, quantity := i.quantity,
            price := catalogPrice st.medicines i.medicineId }) ∧
        (∀ i ∈ items, (catalogPrice st.medicines i.medicineId).isSome = true) ∧
        catalogTotal st.medicines items = some o.totalAmount) ∧
    (∀ body o, createdOrder (placeOrderUsingCartId st body).1 = some o →
      ∃ cartId cart, body.cartId = some cartId ∧
        Cart.findById st.carts cartId = some cart ∧
        (placeOrderUsingCartId st body).2.orders = st.orders ++ [o] ∧
        o.items = cart.items.map (fun i =>
          { medicineId := i.medicineId, quantity := i.quantity,
            price := catalogPrice st.medicines i.medicineId }) ∧
        (∀ i ∈ cart.items, (catalogPrice st.medicines i.medicineId).isSome = true) ∧
        catalogTotal st.medicines cart.items = some o.totalAmount) ∧
    (∀ (f : JSNumber → JSNumber) body,
      placeOrderUsingCartId { st with carts := retotal f st.carts } body =
        ((placeOrderUsingCartId st body).1,
          { (placeOrderUsingCartId st body).2 with
            carts := retotal f (placeOrderUsingCartId st body).2.carts })) := by
  refine ⟨?_, ?_, ?_⟩
  · intro body o h
    obtain ⟨userId, items, ms1, -, hitems, hloop, -, hst⟩ := placeOrderByUserId_created st body o h
    obtain ⟨h1, h2, h3, -⟩ := itemsLoop_ok items st.medicines 0 [] ms1 _ _ hloop
    exact ⟨items, hitems, by rw [hst], by simpa using h1, h2, h3⟩
  · intro body o h
    obtain ⟨cartId, cart, ms1, hid, hcart, hloop, -, hst⟩ :=
      placeOrderUsingCartId_created st body o h
    obtain ⟨h1, h2, h3, -⟩ := itemsLoop_ok cart.items st.medicines 0 [] ms1 _ _ hloop
    exact ⟨cartId, cart, hid, hcart, by rw [hst], by simpa using h1, h2, h3⟩
  · intro f body
    exact placeOrderUsingCartId_retotal f st body

/-- Scenario of the amended C6: the cart `cartCA` of user 7 holds 3 units of
C (price 2.5) then 2 units of A (price 10) and a stored total of 1.
`placeOrderUsingCartId` and, for the same line items, `placeOrderByUserId`
create the order `orderCA`: the two line items in that order with the prices
2.5 and 10, and the total 27.5. -/
theorem direct_items_order_contents_witness :
    (createdOrder (placeOrderUsingCartId stShop (bodyCart 35)).1 = some orderCA ∧
      createdOrder (placeOrderByUserId stShop bodyCA).1 = some orderCA ∧
      orderCA.totalAmount.toRat? = some (55 / 2) ∧
      cartCA.totalPrice ≠ orderCA.totalAmount) ∧
    (∃ cartId cart, (bodyCart 35).cartId = some cartId ∧
        Cart.findById stShop.carts cartId = some cart ∧
        (placeOrderUsingCartId stShop (bodyCart 35)).2.orders = stShop.orders ++ [orderCA] ∧
        orderCA.items = cart.items.map (fun i =>
          { medicineId := i.medicineId, quantity := i.quantity,
            price := catalogPrice stShop.medicines i.medicineId }) ∧
        (∀ i ∈ cart.items, (catalogPrice stShop.medicines i.medicineId).isSome = true) ∧
        catalogTotal stShop.medicines cart.items = some orderCA.totalAmount) ∧
    (∃ items, bodyCA.cartItems = some items ∧
        (placeOrderByUserId stShop bodyCA).2.orders = stShop.orders ++ [orderCA] ∧
        orderCA.items = items.map (fun i =>
          { medicineId := i.medicineId, quantity := i.quantity,
            price := catalogPrice stShop.medicines i.medicineId }) ∧
        (∀ i ∈ items, (catalogPrice stShop.medicines i.medicineId).isSome = true) ∧
        catalogTotal stShop.medicines items = some orderCA.totalAmount) :=
  ⟨⟨by decide, by decide,
      by
        have h : orderCA.totalAmount = .finite 7740561859543040 (-48) := by decide
        rw [h]
        simp only [JSNumber.toRat?]
        norm_num,
      by decide⟩,
    (direct_items_order_contents stShop).2.1 (bodyCart 35) orderCA (by decide),
    (direct_items_order_contents stShop).1 bodyCA orderCA (by decide)⟩

/-- C2, refuted: user 7 orders 3 units of E, whose price is 9007199254740991,
by `placeOrderByUserId`.  The 201 carries the total 27021597764222972 (the
product rounded to binary64), while the sum of stored price times quantity
over the stored line items is 27021597764222973 in exact arithmetic. -/
theorem placeOrderByUserId_total_not_exact :
    ∃ o, createdOrder (placeOrderByUserId stShop bodyE).1 = some o ∧
      o.totalAmount.toRat? = some 27021597764222972 ∧
      exactStoredTotal o.items = some 27021597764222973 ∧
      o.totalAmount.toRat? ≠ exactStoredTotal o.items := by
  refine ⟨{ _id := 2, userId := some 7,
            items := [⟨5, 3, some (.finite 9007199254740991 0)⟩],
            totalAmount := .finite 6755399441055743 2,
            status := .Pending, paymentStatus := .Pending,
            address := some "12 Hill Road", contact := some "555-0100" },
    by decide, ?_, ?_, ?_⟩
  · simp only [JSNumber.toRat?]
    norm_num
  · simp only [exactStoredTotal, Option.bind, JSNumber.toRat?]
    norm_num
  · simp only [exactStoredTotal, Option.bind, JSNumber.toRat?]
    norm_num

/-- The flow `placeOrder`, evaluated on a cart of 2 units of A (catalog price
10) whose stored total is 15: the 201 carries the total 15, the line items of
the order store no price, and the catalog prices give 20. -/
theorem placeOrder_total_is_cart_total :
    ∃ o, createdOrder (placeOrder stStale 7 (some "12 Hill Road") (some "555-0100")).1 =
        some o ∧
      o.totalAmount = 15 ∧
      o.items = [⟨1, 2, none⟩] ∧
      storedTotal o.items = none ∧
      catalogTotal stStale.medicines cartStale.items = some 20 :=
  ⟨_, rfl, by decide, by decide, by decide, by decide⟩

/-- C2, as amended: for every 201 of `placeOrderByUserId` or of
`placeOrderUsingCartId`, the total of the created order is the sum of stored
price times quantity accumulated from 0 over the line items stored on that
order, in their order, in JavaScript number arithmetic (each product and each
partial sum rounded to binary64). -/
theorem placement_total (st : State) :
    (∀ body o, createdOrder (placeOrderByUserId st body).1 = some o →
      storedTotal o.items = some o.totalAmount) ∧
    (∀ body o, createdOrder (placeOrderUsingCartId st body).1 = some o →
      storedTotal o.items = some o.totalAmount) := by
  refine ⟨?_, ?_⟩
  · intro body o h
    obtain ⟨userId, items, ms1, -, -, hloop, -, -⟩ := placeOrderByUserId_created st body o h
    obtain ⟨h1, -, -, h4⟩ := itemsLoop_ok items st.medicines 0 [] ms1 _ _ hloop
    rw [List.nil_append] at h1
    rw [h1]
    exact h4
  · intro body o h
    obtain ⟨cartId, cart, ms1, -, -, hloop, -, -⟩ := placeOrderUsingCartId_created st body o h
    obtain ⟨h1, -, -, h4⟩ := itemsLoop_ok cart.items st.medicines 0 [] ms1 _ _ hloop
    rw [List.nil_append] at h1
    rw [h1]
    exact h4

/-- Scenario of the amended C2: the order `orderCA`, created by either
direct-items flow for 3 units of C (price 2.5) then 2 units of A (price 10),
stores those two prices and the total 27.5. -/
theorem placement_total_witness :
    (createdOrder (placeOrderByUserId stShop bodyCA).1 = some orderCA ∧
      createdOrder (placeOrderUsingCartId stShop (bodyCart 35)).1 = some orderCA ∧
      exactStoredTotal orderCA.items = some (55 / 2)) ∧
    storedTotal orderCA.items = some orderCA.totalAmount ∧
    storedTotal orderCA.items = some orderCA.totalAmount :=
  ⟨⟨by decide, by decide,
      by
        have h : orderCA.items =
            [⟨3, 3, some (.finite 5629499534213120 (-51))⟩,
              ⟨1, 2, some (.finite 5629499534213120 (-49))⟩] := by decide
        rw [h]
        simp only [exactStoredTotal, Option.bind, JSNumber.toRat?]
        norm_num⟩,
    (placement_total stShop).1 bodyCA orderCA (by decide),
    (placement_total stShop).2 (bodyCart 35) orderCA (by decide)⟩

/-! ## Empty and missing carts -/

/-- C7, refuted for `placeOrderUsingCartId`: a request that gives the
identifier of a cart that does not exist and no address is answered 400
(missing required fields), not 404. -/
theorem placeOrderUsingCartId_missing_cart_400 :
    Cart.findById stAB.carts 99 = none ∧
      placeOrderUsingCartId stAB
          { cartId := some 99, address := none, contact := some "555-0100" } =
        (⟨400, .message "Missing required fields"⟩, stAB) ∧
      (placeOrderUsingCartId stAB
          { cartId := some 99, address := none, contact := some "555-0100" }).1.status ≠
        404 := by
  decide

/-- C7, as amended: placing from an empty or missing cart fails and changes
nothing.  `placeOrder` responds 400 when the caller has no cart or a cart with
no line item; `placeOrderUsingCartId`, given the identifier of no cart or of a
cart with no line item, responds 404 when the address and the contact are both
supplied and 400 when one of them is missing; `placeOrderByUserId` responds
400 when `cartItems` is missing or empty.  In each case the three collections
are left as they were. -/
theorem empty_cart_placement_fails (st : State) :
    (∀ userId address contact,
      (Cart.findOne st.carts userId = none ∨
        ∃ c, Cart.findOne st.carts userId = some c ∧ c.items = []) →
      placeOrder st userId address contact = (⟨400, .message "Cart is empty"⟩, st)) ∧
    (∀ body cartId, body.cartId = some cartId →
      (Cart.findById st.carts cartId = none ∨
        ∃ c, Cart.findById st.carts cartId = some c ∧ c.items = []) →
      ((truthy body.address = true ∧ truthy body.contact = true) →
        placeOrderUsingCartId st body = (⟨404, .message "Cart not found or empty"⟩, st)) ∧
      (¬ (truthy body.address = true ∧ truthy body.contact = true) →
        placeOrderUsingCartId st body = (⟨400, .message "Missing required fields"⟩, st))) ∧
    (∀ body, (body.cartItems = none ∨ body.cartItems = some []) →
      placeOrderByUserId st body =
        (⟨400, .message "Missing required fields or cart is empty"⟩, st)) := by
  refine ⟨?_, ?_, ?_⟩
  · intro userId address contact h
    rcases h with h | ⟨c, h, hc⟩
    · simp [placeOrder, h]
    · simp [placeOrder, h, hc]
  · intro body cartId hid h
    obtain ⟨cid, addr, con⟩ := body
    simp only at hid
    subst hid
    constructor
    · rintro ⟨ha, hb⟩
      have hg : ¬ (truthy addr = false ∨ truthy con = false) := by simp [ha, hb]
      rcases h with h | ⟨c, h, hc⟩
      · simp only [placeOrderUsingCartId, if_neg hg, h]
      · simp [placeOrderUsingCartId, ha, hb, h, hc]
    · intro hn
      have hg : truthy addr = false ∨ truthy con = false := by
        by_cases ha : truthy addr = true
        · right
          by_cases hb : truthy con = true
          · exact absurd ⟨ha, hb⟩ hn
          · simpa using hb
        · left
          simpa using ha
      simp only [placeOrderUsingCartId, if_pos hg]
  · intro body h
    obtain ⟨uid, addr, con, citems⟩ := body
    simp only at h
    rcases h with h | h
    · subst h
      cases uid <;> simp [placeOrderByUserId]
    · subst h
      cases uid <;> simp [placeOrderByUserId]

/-- Scenario of the amended C7: user 8 has no cart, no cart has identifier 99,
and a request by user identifier comes with an empty `cartItems`. -/
theorem empty_cart_placement_fails_witness :
    placeOrder stAB 8 (some "12 Hill Road") (some "555-0100") =
        (⟨400, .message "Cart is empty"⟩, stAB) ∧
      placeOrderUsingCartId stAB (bodyCart 99) =
        (⟨404, .message "Cart not found or empty"⟩, stAB) ∧
      placeOrderByUserId stAB { bodyA with cartItems := some [] } =
        (⟨400, .message "Missing required fields or cart is empty"⟩, stAB) :=
  ⟨(empty_cart_placement_fails stAB).1 8 _ _ (Or.inl (by decide)),
    ((empty_cart_placement_fails stAB).2.1 (bodyCart 99) 99 rfl (Or.inl (by decide))).1
      ⟨by decide, by decide⟩,
    (empty_cart_placement_fails stAB).2.2 _ (Or.inr rfl)⟩

/-! ## cancelOrder -/

/-- C1: for an order that exists, `cancelOrder` responds 400 and leaves the
collections as they were when the status is Shipped or Delivered; for any
other status (Pending, Processing or Cancelled) it responds 200 with the order
as Cancelled, the stored orders differ from the original ones only in that
this order now has status Cancelled, and a second `cancelOrder` also responds
200 and changes nothing further. -/
theorem cancelOrder_transitions (st : State) (id : Nat) (order : Order)
    (h : Order.findById st.orders id = some order) :
    ((order.status = .Shipped ∨ order.status = .Delivered) →
      (cancelOrder st id).1.status = 400 ∧ (cancelOrder st id).2 = st) ∧
    (¬ (order.status = .Shipped ∨ order.status = .Delivered) →
      (order.status = .Pending ∨ order.status = .Processing ∨ order.status = .Cancelled) ∧
      (cancelOrder st id).1 =
        ⟨200, .messageOrder "Order cancelled successfully"
          ({ order with status := .Cancelled } : Order)⟩ ∧
      (∃ pre post, st.orders = pre ++ order :: post ∧ (∀ x ∈ pre, x._id ≠ id) ∧
        (cancelOrder st id).2 =
          { st with orders := pre ++ ({ order with status := .Cancelled } : Order) :: post }) ∧
      (cancelOrder (cancelOrder st id).2 id).1.status = 200 ∧
      (cancelOrder (cancelOrder st id).2 id).2 = (cancelOrder st id).2) := by
  have hid : order._id = id := by
    have := List.find?_some h
    simpa using this
  constructor
  · intro hs
    simp only [cancelOrder, h, if_pos hs, and_self]
  · intro hs
    have hres : cancelOrder st id =
        (⟨200, .messageOrder "Order cancelled successfully"
            ({ order with status := .Cancelled } : Order)⟩,
          { st with orders :=
              Order.save st.orders ({ order with status := .Cancelled } : Order) }) := by
      simp only [cancelOrder, h, if_neg hs]
    obtain ⟨pre, post, hsplit, hpre, hsave⟩ :=
      Order.save_split st.orders id order ({ order with status := .Cancelled } : Order) h hid
    have hfind2 : Order.findById (pre ++ ({ order with status := .Cancelled } : Order) :: post)
        id = some ({ order with status := .Cancelled } : Order) :=
      Order.findById_split pre post id _ hpre hid
    obtain ⟨pre2, post2, hsplit2, -, hsave2⟩ :=
      Order.save_split (pre ++ ({ order with status := .Cancelled } : Order) :: post) id
        ({ order with status := .Cancelled } : Order)
        ({ order with status := .Cancelled } : Order) hfind2 hid
    have hsave3 : Order.save (pre ++ ({ order with status := .Cancelled } : Order) :: post)
        ({ order with status := .Cancelled } : Order) =
          pre ++ ({ order with status := .Cancelled } : Order) :: post := by
      rw [hsave2]
      exact hsplit2.symm
    have hsecond : cancelOrder
        { st with orders := pre ++ ({ order with status := .Cancelled } : Order) :: post } id =
        (⟨200, .messageOrder "Order cancelled successfully"
            ({ order with status := .Cancelled } : Order)⟩,
          { st with orders := pre ++ ({ order with status := .Cancelled } : Order) :: post }) := by
      simp [cancelOrder, hfind2, hsave3]
    rw [hres, hsave]
    refine ⟨?_, rfl, ⟨pre, post, hsplit, hpre, rfl⟩, ?_, ?_⟩
    · cases hst : order.status <;> simp_all
    · simp only [hsecond]
    · simp only [hsecond]

/-- Scenario of C1: the order `orderA` is Pending; it is cancelled, and
cancelling it again succeeds and changes nothing. -/
theorem cancelOrder_transitions_witness :
    Order.findById stOrder.orders 1 = some orderA ∧
      (cancelOrder stOrder 1).2.orders = [{ orderA with status := .Cancelled }] ∧
      (cancelOrder stShipped 1).1.status = 400 ∧
      (cancelOrder (cancelOrder stOrder 1).2 1).1.status = 200 ∧
      (cancelOrder (cancelOrder stOrder 1).2 1).2 = (cancelOrder stOrder 1).2 :=
  ⟨by decide, by decide, by decide,
    ((cancelOrder_transitions stOrder 1 orderA (by decide)).2 (by decide)).2.2.2⟩

/-! ## getOrders and getOrdersByPatientId -/

/-- C8: `getOrders` called by `u` responds 200 with exactly the stored orders
whose owner is `u`, in stored order: each listed order has the identifier,
owner, total, status, payment status, address and contact of the stored order
it stands for, and the line items of that order with their quantity and price
and with the reference resolved to the catalog document.  The list is empty
when `u` owns no order.  `getOrdersByPatientId` called with `u` gives the same
response as `getOrders` when `u` owns at least one order and responds 404
exactly when `u` owns none; neither changes the collections. -/
theorem listing_orders (st : State) (u : Nat) :
    ∃ os : List PopulatedOrder,
      getOrders st u = (⟨200, .orders os⟩, st) ∧
      List.Forall₂
        (fun (o : Order) (p : PopulatedOrder) =>
          p._id = o._id ∧ p.userId = o.userId ∧ p.totalAmount = o.totalAmount ∧
          p.status = o.status ∧ p.paymentStatus = o.paymentStatus ∧
          p.address = o.address ∧ p.contact = o.contact ∧
          List.Forall₂
            (fun (i : OrderItem) (q : PopulatedItem) =>
              q.medicineId = Medicine.findById st.medicines i.medicineId ∧
              q.quantity = i.quantity ∧ q.price = i.price)
            o.items p.items)
        (st.orders.filter (fun o => decide (o.userId = some u))) os ∧
      ((∀ o ∈ st.orders, o.userId ≠ some u) →
        os = [] ∧
        getOrdersByPatientId st u =
          (⟨404, .message "No orders found for this patient"⟩, st)) ∧
      ((∃ o ∈ st.orders, o.userId = some u) →
        getOrdersByPatientId st u = getOrders st u) ∧
      ((getOrdersByPatientId st u).1.status = 404 ↔ ∀ o ∈ st.orders, o.userId ≠ some u) ∧
      (getOrdersByPatientId st u).2 = st := by
  have hfilter : Order.find st.orders u =
      st.orders.filter (fun o => decide (o.userId = some u)) := by
    unfold Order.find
    congr 1
    funext o
    by_cases ho : o.userId = some u <;> simp [ho]
  have hnone : (∀ o ∈ st.orders, o.userId ≠ some u) → Order.find st.orders u = [] := by
    intro h
    rw [hfilter, List.filter_eq_nil_iff]
    intro o ho
    simpa using h o ho
  have hsome : (∃ o ∈ st.orders, o.userId = some u) →
      ¬ ((Order.find st.orders u).map (populate st.medicines)).length = 0 := by
    rintro ⟨o, ho, hu⟩ hlen
    have hmem : o ∈ Order.find st.orders u := by
      rw [hfilter]
      exact List.mem_filter.mpr ⟨ho, by simpa using hu⟩
    rw [List.length_map] at hlen
    rw [List.length_eq_zero.mp hlen] at hmem
    simp at hmem
  refine ⟨(Order.find st.orders u).map (populate st.medicines), rfl, ?_, ?_, ?_, ?_, ?_⟩
  · rw [← hfilter, List.forall₂_map_right_iff, List.forall₂_same]
    intro o _
    refine ⟨rfl, rfl, rfl, rfl, rfl, rfl, rfl, ?_⟩
    show List.Forall₂ _ o.items (o.items.map (populateItem st.medicines))
    rw [List.forall₂_map_right_iff, List.forall₂_same]
    intro i _
    exact ⟨rfl, rfl, rfl⟩
  · intro h
    simp [getOrdersByPatientId, hnone h]
  · intro h
    simp only [getOrdersByPatientId, if_neg (hsome h), getOrders]
  · constructor
    · intro h404 o ho hu
      have := hsome ⟨o, ho, hu⟩
      simp only [getOrdersByPatientId, if_neg this] at h404
      exact absurd h404 (by decide)
    · intro h
      simp [getOrdersByPatientId, hnone h]
  · simp only [getOrdersByPatientId]
    split <;> rfl

/-- Scenario of C8: user 7 owns the only stored order, `orderA`, which both
handlers list as `populatedA` (2 units of the document of medicine A at price
10, total 20); user 8 owns none, and gets an empty list from `getOrders` and
404 from `getOrdersByPatientId`. -/
theorem listing_orders_witness :
    (getOrders stOrder 7 = (⟨200, .orders [populatedA]⟩, stOrder) ∧
      getOrdersByPatientId stOrder 7 = (⟨200, .orders [populatedA]⟩, stOrder) ∧
      getOrders stOrder 8 = (⟨200, .orders []⟩, stOrder) ∧
      getOrdersByPatientId stOrder 8 =
        (⟨404, .message "No orders found for this patient"⟩, stOrder)) ∧
    ∃ os : List PopulatedOrder,
      getOrders stOrder 7 = (⟨200, .orders os⟩, stOrder) ∧
      List.Forall₂
        (fun (o : Order) (p : PopulatedOrder) =>
          p._id = o._id ∧ p.userId = o.userId ∧ p.totalAmount = o.totalAmount ∧
          p.status = o.status ∧ p.paymentStatus = o.paymentStatus ∧
          p.address = o.address ∧ p.contact = o.contact ∧
          List.Forall₂
            (fun (i : OrderItem) (q : PopulatedItem) =>
              q.medicineId = Medicine.findById stOrder.medicines i.medicineId ∧
              q.quantity = i.quantity ∧ q.price = i.price)
            o.items p.items)
        (stOrder.orders.filter (fun o => decide (o.userId = some 7))) os ∧
      ((∀ o ∈ stOrder.orders, o.userId ≠ some 7) →
        os = [] ∧
        getOrdersByPatientId stOrder 7 =
          (⟨404, .message "No orders found for this patient"⟩, stOrder)) ∧
      ((∃ o ∈ stOrder.orders, o.userId = some 7) →
        getOrdersByPatientId stOrder 7 = getOrders stOrder 7) ∧
      ((getOrdersByPatientId stOrder 7).1.status = 404 ↔
        ∀ o ∈ stOrder.orders, o.userId ≠ some 7) ∧
      (getOrdersByPatientId stOrder 7).2 = stOrder :=
  ⟨by decide, listing_orders stOrder 7⟩

end OrderController
